import Mathlib

/-!
Shallow embedding of the authentication and authorization engine of the
Pharmacy Management App (`src/controllers/auth.py`, with its input
validators from `src/utils/validation.py` and `src/utils/validators.py`).

Modelling conventions:
* Time is an abstract `Nat` measured in minutes; every operation that reads
  the wall clock (`datetime.now()`) takes an explicit `now : Nat` argument.
  Durations given in hours in the source are converted with `* 60`.
* The Python dicts `_users` (keyed by `User.id`) and `_sessions` (keyed by
  `Session.session_id`) are association lists; dict assignment is
  remove-key-then-append, dict deletion is a filter.
* `self.current_user` / `self.current_session` alias objects stored in the
  dicts, so they are modelled as the stored keys (`currentUserId`,
  `currentSessionId`) resolved by lookup.  A session that was removed from
  the dict while still current (only possible via `terminate_session`, which
  marks it Terminated first) fails `is_valid` in Python and fails the lookup
  here, giving the same observable answers.
* Qt signal emissions (`emit_error`, `emit_success`, the `pyqtSignal`
  fields) are collected in an `AuthEvent` list returned by the operations
  whose emissions the specification talks about.
-/

namespace PharmAuth

/-- `UserRole` enum of `auth.py`. -/
inductive UserRole where
  | admin
  | pharmacist
  | nutritionist
  | assistant
  | viewer
deriving DecidableEq, Repr

/-- The `.value` string of a `UserRole` member. -/
def UserRole.value : UserRole → String
  | .admin => "admin"
  | .pharmacist => "pharmacist"
  | .nutritionist => "nutritionist"
  | .assistant => "assistant"
  | .viewer => "viewer"

/-- `Permission` enum of `auth.py` (the closed permission enumeration). -/
inductive Permission where
  | clientCreate
  | clientRead
  | clientUpdate
  | clientDelete
  | dietCreate
  | dietRead
  | dietUpdate
  | dietDelete
  | reportGenerate
  | reportView
  | reportDelete
  | userManage
  | settingsManage
  | backupRestore
  | auditView
deriving DecidableEq, Repr

/-- `SessionStatus` enum of `auth.py`. -/
inductive SessionStatus where
  | active
  | expired
  | terminated
  | locked
deriving DecidableEq, Repr

/-- The `User` model class of `auth.py` (data fields only). -/
structure User where
  id : String
  username : String
  email : String
  role : UserRole
  passwordHash : String
  salt : String
  isActive : Bool
  createdAt : Nat
  lastLogin : Option Nat
  failedLoginAttempts : Nat
  lockedUntil : Option Nat
deriving DecidableEq, Repr

/-- `User.is_locked`: locked iff `locked_until` is set and `now` is before it. -/
def User.isLocked (u : User) (now : Nat) : Bool :=
  match u.lockedUntil with
  | some t => now < t
  | none => false

/-- The `role_permissions` table of `User.get_permissions`. -/
def rolePermissions : UserRole → List Permission
  | .admin =>
      [.clientCreate, .clientRead, .clientUpdate, .clientDelete,
       .dietCreate, .dietRead, .dietUpdate, .dietDelete,
       .reportGenerate, .reportView, .reportDelete,
       .userManage, .settingsManage, .backupRestore, .auditView]
  | .pharmacist =>
      [.clientCreate, .clientRead, .clientUpdate,
       .dietCreate, .dietRead, .dietUpdate,
       .reportGenerate, .reportView]
  | .nutritionist =>
      [.clientCreate, .clientRead, .clientUpdate,
       .dietCreate, .dietRead, .dietUpdate,
       .reportGenerate, .reportView]
  | .assistant =>
      [.clientCreate, .clientRead, .clientUpdate,
       .dietRead, .reportView]
  | .viewer =>
      [.clientRead, .dietRead, .reportView]

/-- `User.get_permissions`: permissions of the user\x27s role. -/
def User.getPermissions (u : User) : List Permission :=
  rolePermissions u.role

/-- `User.has_permission`: membership in `get_permissions`. -/
def User.hasPermission (u : User) (p : Permission) : Bool :=
  u.getPermissions.contains p

/-- The `Session` model class of `auth.py` (data fields only;
`ip_address`/`user_agent` are always `None` in the code paths modelled). -/
structure Session where
  sessionId : String
  userId : String
  username : String
  role : UserRole
  createdAt : Nat
  expiresAt : Nat
  lastActivity : Nat
  status : SessionStatus
deriving DecidableEq, Repr

/-- `Session.is_valid`: status Active and not yet expired. -/
def Session.isValid (t : Session) (now : Nat) : Bool :=
  t.status == SessionStatus.active && now < t.expiresAt

/-- Modelled from the spec: `CredentialHasher.hash`.  The source calls the
external `hashlib.pbkdf2_hmac('sha256', password, salt, 100000)`; it is
modelled as an injective deterministic encoding of `(password, salt)`, which
is the only property the engine relies on. -/
def hashPassword (password salt : String) : String :=
  "pbkdf2:" ++ password ++ ":" ++ salt

/-- `AuthController._verify_password`: recompute and compare. -/
def verifyPassword (password passwordHash salt : String) : Bool :=
  hashPassword password salt == passwordHash

/-- Characters removed by `sanitize_input` (`validators.py`): control
characters except newline and tab. -/
def strippedControlChar (c : Char) : Bool :=
  c.toNat ≤ 0x08 || c.toNat == 0x0B || c.toNat == 0x0C ||
  (0x0E ≤ c.toNat && c.toNat ≤ 0x1F) || c.toNat == 0x7F

/-- Whitespace stripped by Python `str.strip()` (the ASCII whitespace set). -/
def pyWhitespace (c : Char) : Bool :=
  c == ' ' || c == '\t' || c == '\n' || c == '\r' || c == '\x0b' || c == '\x0c'

/-- Python `str.strip()` on the character list. -/
def stripChars (cs : List Char) : List Char :=
  ((cs.dropWhile pyWhitespace).reverse.dropWhile pyWhitespace).reverse

/-- `sanitize_input` (`validators.py`): strip, drop control characters,
truncate to `maxLength`. -/
def sanitizeInput (text : String) (maxLength : Option Nat) : String :=
  let t := String.mk (stripChars text.toList)
  let t := String.mk (t.toList.filter (fun c => !(strippedControlChar c)))
  match maxLength with
  | some m => if t.length > m then String.mk (t.toList.take m) else t
  | none => t

/-- Character class of the username regex `[a-zA-Z0-9_-]` in
`validate_user_data`. -/
def usernameChar (c : Char) : Bool :=
  c.isAlphanum || c == '_' || c == '-'

/-- Local-part character class `[a-zA-Z0-9._%+-]` of the email regex. -/
def emailLocalChar (c : Char) : Bool :=
  c.isAlphanum || c == '.' || c == '_' || c == '%' || c == '+' || c == '-'

/-- Domain character class `[a-zA-Z0-9.-]` of the email regex. -/
def emailDomainChar (c : Char) : Bool :=
  c.isAlphanum || c == '.' || c == '-'

/-- `validate_email` (`validators.py`): the regex
`^[a-zA-Z0-9._%+-]+@[a-zA-Z0-9.-]+\.[a-zA-Z]\x7b2,\x7d$` on the stripped
input.  A match exists iff the part before the first `@` is a nonempty run
of local characters, everything after it is `@`-free domain characters, and
splitting at the last dot leaves a nonempty prefix and an all-alphabetic
suffix of length at least 2. -/
def validEmail (email : String) : Bool :=
  let cs := stripChars email.toList
  let localPart := cs.takeWhile (fun c => !(c == '@'))
  match cs.dropWhile (fun c => !(c == '@')) with
  | '@' :: domain =>
      !localPart.isEmpty && localPart.all emailLocalChar &&
      !(domain.contains '@') && domain.all emailDomainChar &&
      (match domain.reverse.dropWhile (fun c => !(c == '.')) with
       | '.' :: dRev =>
           let tld := (domain.reverse.takeWhile (fun c => !(c == '.'))).reverse
           !dRev.isEmpty && decide (2 ≤ tld.length) && tld.all (fun c => c.isAlpha)
       | _ => false)
  | _ => false

/-- Special-character class of `validate_password` (`validators.py`). -/
def passwordSpecialChars : String :=
  "!@#$%^&*(),.?\":\x7b\x7d|<>"

/-- The five requirement checks of `validate_password`, as a score. -/
def passwordScore (password : String) (minLength : Nat) : Nat :=
  (if minLength ≤ password.length then 1 else 0) +
  (if password.toList.any (fun c => c.isUpper) then 1 else 0) +
  (if password.toList.any (fun c => c.isLower) then 1 else 0) +
  (if password.toList.any (fun c => c.isDigit) then 1 else 0) +
  (if password.toList.any (fun c => passwordSpecialChars.toList.contains c) then 1 else 0)

/-- `validate_password` validity (`validators.py`): nonempty and at least 3
of the 5 requirements met. -/
def passwordStrengthValid (password : String) (minLength : Nat) : Bool :=
  if password == "" then false
  else decide (3 ≤ passwordScore password minLength)

/-- The failure suggestions of `validate_password`, in source order. -/
def passwordSuggestions (password : String) (minLength : Nat) : List String :=
  (if minLength ≤ password.length then []
   else ["يجب أن تحتوي كلمة المرور على " ++ toString minLength ++ " أحرف على الأقل"]) ++
  (if password.toList.any (fun c => c.isUpper) then []
   else ["يجب أن تحتوي على حرف كبير واحد على الأقل"]) ++
  (if password.toList.any (fun c => c.isLower) then []
   else ["يجب أن تحتوي على حرف صغير واحد على الأقل"]) ++
  (if password.toList.any (fun c => c.isDigit) then []
   else ["يجب أن تحتوي على رقم واحد على الأقل"]) ++
  (if password.toList.any (fun c => passwordSpecialChars.toList.contains c) then []
   else ["يجب أن تحتوي على رمز خاص واحد على الأقل"])

/-- `AuthValidator.validate_login_data`: returns `(is_valid, error messages)`.
The username is required, sanitized to 100 characters and length-checked
(3..100); the password is required and must be nonempty. -/
def validateLoginData (username password : String) : Bool × List String :=
  let usernameErrs :=
    if username == "" then ["Field \x27Username\x27 is required"]
    else
      let u := sanitizeInput username (some 100)
      if u.length < 3 then ["Field \x27Username\x27 must be at least 3 characters"]
      else if 100 < u.length then ["Field \x27Username\x27 must not exceed 100 characters"]
      else []
  let passwordErrs :=
    if password == "" then ["Field \x27Password\x27 is required"]
    else if 0 < password.length then []
    else ["Password cannot be empty"]
  let errs := usernameErrs ++ passwordErrs
  (errs.isEmpty, errs)

/-- Input dictionary of `validate_user_data` / `create_user` / `update_user`:
an absent key is `none`, a present value is `some`. -/
structure UserData where
  username : Option String
  email : Option String
  password : Option String
  role : Option String
  isActive : Option Bool
deriving DecidableEq, Repr

/-- The `validated_data` dictionary built by `validate_user_data`: a field is
`some` exactly when the validator stored it. -/
structure ValidatedUserData where
  username : Option String
  email : Option String
  password : Option String
  role : Option String
  isActive : Option Bool
deriving DecidableEq, Repr

/-- Result of `validate_user_data` (`is_valid`, error messages, `data`). -/
structure UserDataCheck where
  valid : Bool
  errors : List String
  data : ValidatedUserData
deriving DecidableEq, Repr

/-- `_validate_required` on one field: error when absent, `None` or empty. -/
def requiredError (v : Option String) (fieldName : String) : List String :=
  match v with
  | none => ["Field \x27" ++ fieldName ++ "\x27 is required"]
  | some x => if x == "" then ["Field \x27" ++ fieldName ++ "\x27 is required"] else []

/-- Username branch of `validate_user_data` (runs when present and nonempty):
sanitize to 50, length 3..50, then the `[a-zA-Z0-9_-]+` regex. -/
def checkUserUsername (v : Option String) : List String × Option String :=
  match v with
  | none => ([], none)
  | some raw =>
      if raw == "" then ([], none)
      else
        let u := sanitizeInput raw (some 50)
        if u.length < 3 then (["Field \x27Username\x27 must be at least 3 characters"], none)
        else if 50 < u.length then (["Field \x27Username\x27 must not exceed 50 characters"], none)
        else if u.toList.all usernameChar then ([], some u)
        else (["Username can only contain letters, numbers, hyphens, and underscores"], none)

/-- Email branch of `validate_user_data`: sanitize to 255, `validate_email`,
store lowercased. -/
def checkUserEmail (v : Option String) : List String × Option String :=
  match v with
  | none => ([], none)
  | some raw =>
      if raw == "" then ([], none)
      else
        let e := sanitizeInput raw (some 255)
        if validEmail e then ([], some (String.mk (e.toList.map Char.toLower)))
        else (["Invalid email address format"], none)

/-- Password branch of `validate_user_data`: `validate_password` with the
default minimum length 8; on failure every suggestion becomes an error. -/
def checkUserPassword (v : Option String) : List String × Option String :=
  match v with
  | none => ([], none)
  | some raw =>
      if raw == "" then ([], none)
      else
        if passwordStrengthValid raw 8 then ([], some raw)
        else (passwordSuggestions raw 8, none)

/-- The `valid_roles` list of `validate_user_data`. -/
def validRoles : List String :=
  ["admin", "pharmacist", "nutritionist", "assistant", "viewer"]

/-- Role branch of `validate_user_data`. -/
def checkRole (v : Option String) : List String × Option String :=
  match v with
  | none => ([], none)
  | some rl =>
      if rl == "" then ([], none)
      else if validRoles.contains rl then ([], some rl)
      else (["Role must be one of: admin, pharmacist, nutritionist, assistant, viewer"], none)

/-- `is_active` branch of `validate_user_data` (every modelled value is a
proper boolean, so the `isinstance` failure arm is unreachable). -/
def checkIsActive (v : Option Bool) : List String × Option Bool :=
  match v with
  | none => ([], none)
  | some b => ([], some b)

/-- `AuthValidator.validate_user_data(data, is_update)`. -/
def validateUserData (isUpdate : Bool) (d : UserData) : UserDataCheck :=
  let reqErrs :=
    if isUpdate then []
    else
      requiredError d.username "username" ++ requiredError d.email "email" ++
      requiredError d.password "password" ++ requiredError d.role "role"
  let rU := checkUserUsername d.username
  let rE := checkUserEmail d.email
  let rP := checkUserPassword d.password
  let rR := checkRole d.role
  let rA := checkIsActive d.isActive
  let errs := reqErrs ++ rU.1 ++ rE.1 ++ rP.1 ++ rR.1
  { valid := errs.isEmpty
    errors := errs
    data := { username := rU.2, email := rE.2, password := rP.2,
              role := rR.2, isActive := rA.2 } }

/-- `UserRole(value)`: `none` models the `ValueError` of an unknown value. -/
def roleOfString (r : String) : Option UserRole :=
  if r == "admin" then some UserRole.admin
  else if r == "pharmacist" then some UserRole.pharmacist
  else if r == "nutritionist" then some UserRole.nutritionist
  else if r == "assistant" then some UserRole.assistant
  else if r == "viewer" then some UserRole.viewer
  else none

/-- Signal emissions observable from an operation, in emission order.
`errorShown`/`successShown` are the client-visible `emit_error`/`emit_success`
dialogs; the `...Signal` constructors are the internal `pyqtSignal` events. -/
inductive AuthEvent where
  | errorShown (title message : String)
  | successShown (title message : String)
  | loginFailedSignal (username reason : String)
  | accountLockedSignal (username : String)
  | userLoggedInSignal (username : String)
  | userLoggedOutSignal (username : String)
  | userCreatedSignal (username : String)
  | dataChanged (operationName : String)
deriving DecidableEq, Repr

/-- The client-visible dialog messages among a run\x27s emissions
(`error_occurred` / `success_occurred` payloads, in order). -/
def clientMessages (evs : List AuthEvent) : List (String × String) :=
  evs.filterMap (fun e =>
    match e with
    | .errorShown title message => some (title, message)
    | .successShown title message => some (title, message)
    | _ => none)

/-- State of an `AuthController`: the user dict, the active-session dict, the
current user/session aliases (as stored keys) and the security settings. -/
structure AuthState where
  users : List User
  sessions : List Session
  currentUserId : Option String
  currentSessionId : Option String
  maxLoginAttempts : Nat
  lockoutDurationMinutes : Nat
  sessionTimeoutHours : Nat
deriving DecidableEq, Repr

/-- `self._users.get(user_id)`. -/
def findUserById (users : List User) (uid : String) : Option User :=
  users.find? (fun u => u.id == uid)

/-- `AuthController._find_user_by_username_or_email`: first user whose
username or email equals the identifier, over the whole dict (active or not). -/
def findUserByUsernameOrEmail (users : List User) (ident : String) : Option User :=
  users.find? (fun u => u.username == ident || u.email == ident)

/-- `self._sessions.get(session_id)` / `session_id in self._sessions`. -/
def findSession (sessions : List Session) (sid : String) : Option Session :=
  sessions.find? (fun t => t.sessionId == sid)

/-- In-place attribute assignment on the user object stored in `_users`. -/
def updateUserIn (users : List User) (uid : String) (f : User → User) : List User :=
  users.map (fun u => if u.id == uid then f u else u)

/-- Dict assignment `self._users[user.id] = user`. -/
def insertUser (users : List User) (u : User) : List User :=
  users.filter (fun x => !(x.id == u.id)) ++ [u]

/-- Dict assignment `self._sessions[session_id] = session`. -/
def insertSession (sessions : List Session) (t : Session) : List Session :=
  sessions.filter (fun x => !(x.sessionId == t.sessionId)) ++ [t]

/-- `self._sessions[sid].status = TERMINATED; del self._sessions[sid]`
(used by both `logout` and `terminate_session`). -/
def removeSessionMarked (sessions : List Session) (sid : String) : List Session :=
  (sessions.map (fun x =>
      if x.sessionId == sid then { x with status := SessionStatus.terminated } else x)).filter
    (fun x => !(x.sessionId == sid))

/-- `self.current_user` resolved through the dict it aliases. -/
def AuthState.currentUser (s : AuthState) : Option User :=
  s.currentUserId.bind (findUserById s.users)

/-- `self.current_session` resolved through the dict it aliases. -/
def AuthState.currentSession (s : AuthState) : Option Session :=
  s.currentSessionId.bind (findSession s.sessions)

/-- `AuthController.has_permission`: requires a current user and a valid
current session, then checks the current user\x27s (live) role permissions. -/
def hasPermission (s : AuthState) (now : Nat) (p : Permission) : Bool :=
  match s.currentUser, s.currentSession with
  | some u, some t => if t.isValid now then u.hasPermission p else false
  | _, _ => false

/-- The session built by `AuthController._create_session` (the `Session`
constructor sets status Active; `duration_hours` is converted to minutes). -/
def newSession (user : User) (durationHours : Nat) (freshSid : String) (now : Nat) : Session :=
  { sessionId := freshSid
    userId := user.id
    username := user.username
    role := user.role
    createdAt := now
    expiresAt := now + durationHours * 60
    lastActivity := now
    status := SessionStatus.active }

/-- `AuthController.login`.  Returns the boolean result, the emissions in
order, and the state after the call.  `freshSid` stands for the
`secrets.token_urlsafe(32)` session id generated on success. -/
def login (s : AuthState) (now : Nat) (username password : String)
    (rememberMe : Bool) (freshSid : String) : Bool × List AuthEvent × AuthState :=
  let v := validateLoginData username password
  if !v.1 then
    (false,
     [.errorShown "Login Error" ("Invalid login data: " ++ String.intercalate "; " v.2)],
     s)
  else
    match findUserByUsernameOrEmail s.users username with
    | none =>
        (false,
         [.loginFailedSignal username "User not found",
          .errorShown "Login Failed" "Invalid username or password"],
         s)
    | some user =>
        if !user.isActive then
          (false,
           [.loginFailedSignal username "Account inactive",
            .errorShown "Login Failed" "Account is inactive"],
           s)
        else if user.isLocked now then
          (false,
           [.accountLockedSignal username,
            .errorShown "Account Locked"
              ("Account is locked until " ++ toString (user.lockedUntil.getD 0))],
           s)
        else if !(verifyPassword password user.passwordHash user.salt) then
          let attempts := user.failedLoginAttempts + 1
          if s.maxLoginAttempts ≤ attempts then
            (false,
             [.accountLockedSignal username,
              .errorShown "Account Locked"
                ("Account locked due to too many failed attempts. Try again in " ++
                 toString s.lockoutDurationMinutes ++ " minutes."),
              .loginFailedSignal username "Invalid password"],
             { s with users := updateUserIn s.users user.id (fun u =>
                 { u with failedLoginAttempts := attempts,
                          lockedUntil := some (now + s.lockoutDurationMinutes) }) })
          else
            (false,
             [.errorShown "Login Failed"
                ("Invalid password. " ++ toString (s.maxLoginAttempts - attempts) ++
                 " attempts remaining."),
              .loginFailedSignal username "Invalid password"],
             { s with users := updateUserIn s.users user.id (fun u =>
                 { u with failedLoginAttempts := attempts }) })
        else
          let sess := newSession user (if rememberMe then 24 else s.sessionTimeoutHours)
            freshSid now
          (true,
           [.successShown "Login Successful" ("Welcome back, " ++ user.username ++ "!"),
            .userLoggedInSignal user.username,
            .dataChanged "user_logged_in"],
           { s with
               users := updateUserIn s.users user.id (fun u =>
                 { u with failedLoginAttempts := 0, lockedUntil := none,
                          lastLogin := some now })
               sessions := insertSession s.sessions sess
               currentUserId := some user.id
               currentSessionId := some freshSid })

/-- `AuthController.logout`.  The middle component is the session object that
was marked Terminated and deleted from the dict (`None` when the current
session id was not registered). -/
def logout (s : AuthState) : Bool × Option Session × AuthState :=
  match s.currentUserId, s.currentSessionId with
  | some _, some sid =>
      let popped := (findSession s.sessions sid).map
        (fun t => { t with status := SessionStatus.terminated })
      (true, popped,
       { s with sessions := removeSessionMarked s.sessions sid,
                currentUserId := none, currentSessionId := none })
  | _, _ => (false, none, s)

/-- `AuthController.change_password`.  `freshSalt` stands for the generated
salt.  (Password strength is checked by `AuthValidator.validate_password`,
which calls `validate_password` with its default minimum length 8.) -/
def changePassword (s : AuthState) (currentPw newPw freshSalt : String) : Bool × AuthState :=
  match s.currentUser with
  | none => (false, s)
  | some u =>
      if !(verifyPassword currentPw u.passwordHash u.salt) then (false, s)
      else if !(passwordStrengthValid newPw 8) then (false, s)
      else
        (true,
         { s with users := updateUserIn s.users u.id (fun x =>
             { x with salt := freshSalt, passwordHash := hashPassword newPw freshSalt }) })

/-- `AuthController.create_user`.  `freshUid` and `freshSalt` stand for the
generated user id and salt.  The final fallback arm models the `except`
clause around the `validated_data[...]` accesses, unreachable when
validation succeeded for a creation. -/
def createUser (s : AuthState) (now : Nat) (d : UserData)
    (freshUid freshSalt : String) : Option String × List AuthEvent × AuthState :=
  if !(hasPermission s now Permission.userManage) then
    (none,
     [.errorShown "Permission Denied" "You don\x27t have permission to create users"],
     s)
  else
    let v := validateUserData false d
    if !v.valid then
      (none,
       [.errorShown "Validation Error"
          ("User data validation failed: " ++ String.intercalate "; " v.errors)],
       s)
    else
      match v.data.username, v.data.email, v.data.password, v.data.role with
      | some un, some em, some pw, some rl =>
          if (findUserByUsernameOrEmail s.users un).isSome then
            (none, [.errorShown "User Creation Error" "Username already exists"], s)
          else if (findUserByUsernameOrEmail s.users em).isSome then
            (none, [.errorShown "User Creation Error" "Email already exists"], s)
          else
            match roleOfString rl with
            | some role =>
                let user : User :=
                  { id := freshUid
                    username := un
                    email := em
                    role := role
                    passwordHash := hashPassword pw freshSalt
                    salt := freshSalt
                    isActive := v.data.isActive.getD true
                    createdAt := now
                    lastLogin := none
                    failedLoginAttempts := 0
                    lockedUntil := none }
                (some freshUid,
                 [.successShown "User Created" ("User " ++ un ++ " created successfully"),
                  .userCreatedSignal un,
                  .dataChanged "user_created"],
                 { s with users := insertUser s.users user })
            | none =>
                (none, [.errorShown "User Creation Error" "Failed to create user"], s)
      | _, _, _, _ =>
          (none, [.errorShown "User Creation Error" "Failed to create user"], s)

/-- User-directory effect of `AuthController.update_user` (the method mutates
only `_users`; the surrounding state is untouched).  Field updates are
applied one at a time on the stored user object, and a duplicate
username/email aborts with `False` while keeping the field updates already
applied (as in the source). -/
def updateUserUsers (s : AuthState) (now : Nat) (uid : String) (d : UserData) :
    Bool × List User :=
  if !(hasPermission s now Permission.userManage) then (false, s.users)
  else
    match findUserById s.users uid with
    | none => (false, s.users)
    | some _ =>
        let v := validateUserData true d
        if !v.valid then (false, s.users)
        else
          let stepU : Bool × List User :=
            match v.data.username with
            | some un =>
                match findUserByUsernameOrEmail s.users un with
                | some existing =>
                    if existing.id == uid then
                      (true, updateUserIn s.users uid (fun u => { u with username := un }))
                    else (false, s.users)
                | none => (true, updateUserIn s.users uid (fun u => { u with username := un }))
            | none => (true, s.users)
          if !stepU.1 then (false, s.users)
          else
            let users1 := stepU.2
            let stepE : Bool × List User :=
              match v.data.email with
              | some em =>
                  match findUserByUsernameOrEmail users1 em with
                  | some existing =>
                      if existing.id == uid then
                        (true, updateUserIn users1 uid (fun u => { u with email := em }))
                      else (false, users1)
                  | none => (true, updateUserIn users1 uid (fun u => { u with email := em }))
              | none => (true, users1)
            if !stepE.1 then (false, users1)
            else
              let users2 := stepE.2
              let users3 :=
                match v.data.role with
                | some rl =>
                    match roleOfString rl with
                    | some role => updateUserIn users2 uid (fun u => { u with role := role })
                    | none => users2
                | none => users2
              let users4 :=
                match v.data.isActive with
                | some b => updateUserIn users3 uid (fun u => { u with isActive := b })
                | none => users3
              (true, users4)

/-- `AuthController.update_user`: result flag plus the state carrying the
updated user directory (sessions and the rest are never touched). -/
def updateUser (s : AuthState) (now : Nat) (uid : String) (d : UserData) : Bool × AuthState :=
  let r := updateUserUsers s now uid d
  (r.1, { s with users := r.2 })

/-- `AuthController.delete_user`: soft delete.  Refuses without the
`USER_MANAGE` permission, for an unknown id, and for the caller\x27s own
account; otherwise deactivates the user and drops the user\x27s sessions. -/
def deleteUser (s : AuthState) (now : Nat) (uid : String) : Bool × AuthState :=
  if !(hasPermission s now Permission.userManage) then (false, s)
  else
    match findUserById s.users uid with
    | none => (false, s)
    | some _ =>
        let isSelf :=
          match s.currentUserId with
          | some cid => uid == cid
          | none => false
        if isSelf then (false, s)
        else
          (true,
           { s with
               users := updateUserIn s.users uid (fun u => { u with isActive := false })
               sessions := s.sessions.filter (fun t => !(t.userId == uid)) })

/-- `AuthController._check_session_expiry` (the 60-second sweep): pops every
session failing `is_valid`, and clears the current user/session when the
current session is among them. -/
def checkSessionExpiry (s : AuthState) (now : Nat) : AuthState :=
  let keep := s.sessions.filter (fun t => t.isValid now)
  let currentExpired :=
    match s.currentSessionId with
    | some csid => s.sessions.any (fun t => !(t.isValid now) && t.sessionId == csid)
    | none => false
  if currentExpired then
    { s with sessions := keep, currentUserId := none, currentSessionId := none }
  else
    { s with sessions := keep }

/-- `AuthController.terminate_session` (admin only). -/
def terminateSession (s : AuthState) (now : Nat) (sid : String) : Bool × AuthState :=
  if !(hasPermission s now Permission.userManage) then (false, s)
  else if (findSession s.sessions sid).isSome then
    (true, { s with sessions := removeSessionMarked s.sessions sid })
  else (false, s)

/-- `AuthController.reset_failed_login_attempts` (admin only). -/
def resetFailedLoginAttempts (s : AuthState) (now : Nat) (username : String) :
    Bool × AuthState :=
  if !(hasPermission s now Permission.userManage) then (false, s)
  else
    match findUserByUsernameOrEmail s.users username with
    | none => (false, s)
    | some u =>
        (true,
         { s with users := updateUserIn s.users u.id (fun x =>
             { x with failedLoginAttempts := 0, lockedUntil := none }) })

/-- `AuthController.extend_current_session`: extends the session object the
`current_session` alias points at (it lives in the dict whenever present). -/
def extendCurrentSession (s : AuthState) (now : Nat) (hours : Nat) : Bool × AuthState :=
  match s.currentSessionId with
  | none => (false, s)
  | some sid =>
      (true,
       { s with sessions := s.sessions.map (fun t =>
           if t.sessionId == sid then
             { t with expiresAt := now + hours * 60, lastActivity := now }
           else t) })

/-- JWT claims payload built by `generate_jwt_token`. -/
structure TokenClaims where
  userId : String
  username : String
  role : String
  exp : Nat
  iat : Nat
deriving DecidableEq, Repr

/-- Outcome of the external `jwt.decode` call (PyJWT): a payload, an
`ExpiredSignatureError`, or an `InvalidTokenError`. -/
inductive JwtDecodeOutcome where
  | ok (payload : TokenClaims)
  | expiredSignature
  | invalidToken
deriving DecidableEq, Repr

/-- `AuthController.generate_jwt_token`: the claims payload (24-hour expiry). -/
def generateJwtToken (user : User) (now : Nat) : TokenClaims :=
  { userId := user.id
    username := user.username
    role := user.role.value
    exp := now + 24 * 60
    iat := now }

/-- `AuthController.verify_jwt_token`: returns the payload on success and
`None` on every failure — the `except` arms for `ExpiredSignatureError` and
`InvalidTokenError` only differ in what they log. -/
def verifyJwtToken : JwtDecodeOutcome → Option TokenClaims
  | .ok payload => some payload
  | .expiredSignature => none
  | .invalidToken => none

/-- One state-mutating call on the controller, with its nondeterministic
inputs (clock readings and generated ids/salts) made explicit. -/
inductive AuthOp where
  | opLogin (now : Nat) (username password : String) (rememberMe : Bool) (freshSid : String)
  | opLogout
  | opChangePassword (currentPw newPw freshSalt : String)
  | opCreateUser (now : Nat) (d : UserData) (freshUid freshSalt : String)
  | opUpdateUser (now : Nat) (uid : String) (d : UserData)
  | opDeleteUser (now : Nat) (uid : String)
  | opSweep (now : Nat)
  | opTerminateSession (now : Nat) (sid : String)
  | opResetFailedAttempts (now : Nat) (username : String)
  | opExtendSession (now : Nat) (hours : Nat)
deriving DecidableEq, Repr

/-- State transition of one controller call. -/
def stepOp : AuthOp → AuthState → AuthState
  | .opLogin now un pw rm f, s => (login s now un pw rm f).2.2
  | .opLogout, s => (logout s).2.2
  | .opChangePassword c n f, s => (changePassword s c n f).2
  | .opCreateUser now d fu fs, s => (createUser s now d fu fs).2.2
  | .opUpdateUser now uid d, s => (updateUser s now uid d).2
  | .opDeleteUser now uid, s => (deleteUser s now uid).2
  | .opSweep now, s => checkSessionExpiry s now
  | .opTerminateSession now sid, s => (terminateSession s now sid).2
  | .opResetFailedAttempts now un, s => (resetFailedLoginAttempts s now un).2
  | .opExtendSession now h, s => (extendCurrentSession s now h).2

/-- The fresh session id an operation may register (only `login` creates
sessions). -/
def opFreshSid : AuthOp → Option String
  | .opLogin _ _ _ _ f => some f
  | _ => none

/-- Run a sequence of controller calls. -/
def runOps (ops : List AuthOp) (s : AuthState) : AuthState :=
  ops.foldl (fun st op => stepOp op st) s

/-- No session with the given id is registered. -/
def noSession (s : AuthState) (sid : String) : Prop :=
  ∀ t ∈ s.sessions, t.sessionId ≠ sid

/-- Every registered session has status Active. -/
def allActive (s : AuthState) : Prop :=
  ∀ t ∈ s.sessions, t.status = SessionStatus.active

/-! ### Concrete fixtures used by counterexamples and witnesses -/

/-- An admin user with password `Secret1!`. -/
def rootUser : User :=
  { id := "u1", username := "root", email := "root@x.co", role := UserRole.admin,
    passwordHash := hashPassword "Secret1!" "s1", salt := "s1", isActive := true,
    createdAt := 0, lastLogin := none, failedLoginAttempts := 0, lockedUntil := none }

/-- An active session for `rootUser`, captured with role Admin. -/
def rootSession : Session :=
  { sessionId := "sid1", userId := "u1", username := "root", role := UserRole.admin,
    createdAt := 0, expiresAt := 480, lastActivity := 0, status := SessionStatus.active }

/-- A controller state where `rootUser` is logged in. -/
def baseState : AuthState :=
  { users := [rootUser], sessions := [rootSession], currentUserId := some "u1",
    currentSessionId := some "sid1", maxLoginAttempts := 5,
    lockoutDurationMinutes := 30, sessionTimeoutHours := 8 }

/-- A viewer user (no one logged in needs it; used for permission checks). -/
def viewerUser : User :=
  { id := "u4", username := "vera", email := "vera@x.co", role := UserRole.viewer,
    passwordHash := hashPassword "Viewer1!" "s4", salt := "s4", isActive := true,
    createdAt := 0, lastLogin := none, failedLoginAttempts := 0, lockedUntil := none }

/-- A user whose lockout expired in the past (`lockedUntil = 5`). -/
def eveUser : User :=
  { id := "u2", username := "eve", email := "eve@x.co", role := UserRole.assistant,
    passwordHash := hashPassword "Evepass1!" "s2", salt := "s2", isActive := true,
    createdAt := 0, lastLogin := none, failedLoginAttempts := 0, lockedUntil := some 5 }

/-- A state containing only `eveUser`, nobody logged in. -/
def eveState : AuthState :=
  { users := [eveUser], sessions := [], currentUserId := none,
    currentSessionId := none, maxLoginAttempts := 5,
    lockoutDurationMinutes := 30, sessionTimeoutHours := 8 }

/-- A deactivated user holding the username `bob`. -/
def bobInactive : User :=
  { id := "u3", username := "bob", email := "bob@x.co", role := UserRole.assistant,
    passwordHash := hashPassword "Bobpass1!" "s3", salt := "s3", isActive := false,
    createdAt := 0, lastLogin := none, failedLoginAttempts := 0, lockedUntil := none }

/-- Logged-in admin plus the deactivated `bob`. -/
def dupState : AuthState :=
  { users := [rootUser, bobInactive], sessions := [rootSession],
    currentUserId := some "u1", currentSessionId := some "sid1",
    maxLoginAttempts := 5, lockoutDurationMinutes := 30, sessionTimeoutHours := 8 }

/-- Creation request reusing the deactivated user\x27s username. -/
def dupData : UserData :=
  { username := some "bob", email := some "new@x.co", password := some "Passw0rd!",
    role := some "assistant", isActive := none }

/-- Update request that changes only the role. -/
def roleDowngradeData : UserData :=
  { username := none, email := none, password := none, role := some "assistant",
    isActive := none }

/-! ### C4 — token verification -/

/-- C4 counterexample: the claim says token verification "returns a typed
failure that distinguishes an expired token from a tampered/malformed one",
but `verify_jwt_token` maps both `ExpiredSignatureError` and
`InvalidTokenError` to the same `None` result. -/
theorem c4_counterexample :
    verifyJwtToken JwtDecodeOutcome.expiredSignature =
      verifyJwtToken JwtDecodeOutcome.invalidToken ∧
    verifyJwtToken JwtDecodeOutcome.expiredSignature = none :=
  ⟨rfl, rfl⟩

/-- C4 amended: verification returns the claims on success and `None` on
every failure — expired and tampered/malformed tokens are indistinguishable
in the returned value (the distinction exists only in internal logging), and
no failure is raised as an exception. -/
theorem c4_amended (p : TokenClaims) :
    verifyJwtToken (JwtDecodeOutcome.ok p) = some p ∧
    verifyJwtToken JwtDecodeOutcome.expiredSignature = none ∧
    verifyJwtToken JwtDecodeOutcome.invalidToken = none :=
  ⟨rfl, rfl, rfl⟩

/-! ### C5 — lazy lockout expiry -/

/-- C5 counterexample: the claim says a past `lockedUntil` is cleared (set to
null) by any evaluation of the lock.  Here `eveUser` has `lockedUntil = 5`;
a login at time 10 evaluates the lock (it gets past the locked branch to the
wrong-password branch, as the emitted message shows), yet the stored user
keeps `lockedUntil = some 5` — the stale lock is ignored, not cleared. -/
theorem c5_counterexample :
    eveUser.lockedUntil = some 5 ∧
    eveUser.isLocked 10 = false ∧
    (login eveState 10 "eve" "wrongwrong" false "f1").1 = false ∧
    clientMessages (login eveState 10 "eve" "wrongwrong" false "f1").2.1 =
      [("Login Failed", "Invalid password. 4 attempts remaining.")] ∧
    findUserById (login eveState 10 "eve" "wrongwrong" false "f1").2.2.users "u2" =
      some { eveUser with failedLoginAttempts := 1 } ∧
    ({ eveUser with failedLoginAttempts := 1 } : User).lockedUntil = some 5 := by
  decide

/-- C5 amended: a `lockedUntil` timestamp in the past is ignored by the lock
evaluation (`is_locked` answers false), but the field is not cleared by the
evaluation itself — it is only reset on a successful login or an explicit
admin reset. -/
theorem c5_amended (u : User) (now t : Nat) (h1 : u.lockedUntil = some t)
    (h2 : t ≤ now) : u.isLocked now = false := by
  unfold User.isLocked
  rw [h1]
  simpa using by omega

/-- C5 amended witness. -/
theorem c5_witness :
    eveUser.lockedUntil = some 5 ∧ 5 ≤ 10 ∧ eveUser.isLocked 10 = false :=
  ⟨rfl, by omega, c5_amended eveUser 10 5 rfl (by omega)⟩

/-! ### C8 — role permission table -/

/-- C8: Admin holds every permission of the closed enumeration, and Viewer
holds exactly the read-class permissions (client read, diet read, report
view). -/
theorem c8_admin_all_viewer_read_only (u v : User) (p : Permission)
    (hu : u.role = UserRole.admin) (hv : v.role = UserRole.viewer) :
    u.hasPermission p = true ∧
    (v.hasPermission p = true ↔
      (p = Permission.clientRead ∨ p = Permission.dietRead ∨ p = Permission.reportView)) := by
  simp only [User.hasPermission, User.getPermissions, hu, hv]
  cases p <;> decide

/-- C8 witness. -/
theorem c8_witness :
    rootUser.role = UserRole.admin ∧ viewerUser.role = UserRole.viewer ∧
    rootUser.hasPermission Permission.dietDelete = true ∧
    (viewerUser.hasPermission Permission.dietDelete = true ↔
      (Permission.dietDelete = Permission.clientRead ∨
       Permission.dietDelete = Permission.dietRead ∨
       Permission.dietDelete = Permission.reportView)) := by
  have h := c8_admin_all_viewer_read_only rootUser viewerUser Permission.dietDelete rfl rfl
  exact ⟨rfl, rfl, h.1, h.2⟩

/-! ### C10 — no self-deletion -/

/-- C10: when the target user id is the current user\x27s id, `delete_user`
returns failure and leaves the whole state (users, flags, sessions)
unchanged; every refusal path of the function is mutation-free. -/
theorem c10_no_self_delete (s : AuthState) (now : Nat) (uid : String)
    (h : s.currentUserId = some uid) :
    deleteUser s now uid = (false, s) := by
  unfold deleteUser
  split
  · rfl
  · split
    · rfl
    · simp [h]

/-- C10 witness. -/
theorem c10_witness :
    baseState.currentUserId = some "u1" ∧
    deleteUser baseState 1 "u1" = (false, baseState) :=
  ⟨rfl, c10_no_self_delete baseState 1 "u1" rfl⟩

/-! ### C1 — session role capture vs live role -/

/-- C1 counterexample: the claim says every permission check through a
session answers with the role the user had when the session was created.
Here `rootSession` was created while its user had role Admin; mid-session the
user\x27s role is updated to Assistant (the update succeeds, and the very same
session stays registered, current and valid), yet a subsequent
`USER_MANAGE` check — a permission Admin holds — answers false: the check
used the live user role, not the captured session role. -/
theorem c1_counterexample :
    rootSession.role = UserRole.admin ∧
    baseState.currentSessionId = some "sid1" ∧
    hasPermission baseState 1 Permission.userManage = true ∧
    (updateUser baseState 1 "u1" roleDowngradeData).1 = true ∧
    findSession (updateUser baseState 1 "u1" roleDowngradeData).2.sessions "sid1" =
      some rootSession ∧
    (updateUser baseState 1 "u1" roleDowngradeData).2.currentSessionId = some "sid1" ∧
    rootSession.isValid 2 = true ∧
    (rolePermissions UserRole.admin).contains Permission.userManage = true ∧
    hasPermission (updateUser baseState 1 "u1" roleDowngradeData).2 2
      Permission.userManage = false := by
  decide

/-- C1 amended: a permission check answers with the *current* stored role of
the current user — the session\x27s captured `role` field is never consulted —
so a mid-session role change is reflected immediately by later checks. -/
theorem c1_amended (s : AuthState) (now : Nat) (p : Permission) (uid sid : String)
    (u : User) (t : Session)
    (hu : s.currentUserId = some uid) (hfu : findUserById s.users uid = some u)
    (hs : s.currentSessionId = some sid) (hft : findSession s.sessions sid = some t)
    (hv : t.isValid now = true) :
    hasPermission s now p = (rolePermissions u.role).contains p := by
  unfold hasPermission AuthState.currentUser AuthState.currentSession
  rw [hu, hs]
  simp [hfu, hft, hv, User.hasPermission, User.getPermissions]

/-- C1 amended witness. -/
theorem c1_witness :
    baseState.currentUserId = some "u1" ∧
    findUserById baseState.users "u1" = some rootUser ∧
    baseState.currentSessionId = some "sid1" ∧
    findSession baseState.sessions "sid1" = some rootSession ∧
    rootSession.isValid 1 = true ∧
    hasPermission baseState 1 Permission.userManage =
      (rolePermissions rootUser.role).contains Permission.userManage := by
  refine ⟨rfl, by decide, rfl, by decide, by decide, ?_⟩
  exact c1_amended baseState 1 Permission.userManage "u1" "sid1" rootUser rootSession
    rfl (by decide) rfl (by decide) (by decide)

/-! ### C6 — duplicate checks on user creation -/

/-- A role string stored by the role branch of `validate_user_data` is one of
the five valid role values. -/
lemma checkRole_mem {v : Option String} {rl : String}
    (h : (checkRole v).2 = some rl) : validRoles.contains rl = true := by
  cases v with
  | none => simp [checkRole] at h
  | some r =>
      simp only [checkRole] at h
      by_cases h0 : r == ""
      · rw [if_pos h0] at h; simp at h
      · rw [if_neg h0] at h
        by_cases h1 : validRoles.contains r = true
        · rw [if_pos h1] at h
          simp at h
          subst h; exact h1
        · rw [if_neg h1] at h
          simp at h

/-- Every valid role value is accepted by the `UserRole` constructor. -/
lemma roleOfString_isSome {rl : String} (h : validRoles.contains rl = true) :
    (roleOfString rl).isSome = true := by
  simp only [validRoles, List.contains_cons, List.contains_nil, Bool.or_eq_true,
    beq_iff_eq] at h
  rcases h with h | h | h | h | h | h <;> first | subst h; rfl | simp at h

/-- C6 counterexample: the claim says a username held only by deactivated
users does not block creation.  In `dupState` the only user named `bob` is
deactivated (and no active user holds the requested username or email), the
creation data validates, yet `create_user` fails with the duplicate-username
error: `_find_user_by_username_or_email` scans all users regardless of
`is_active`. -/
theorem c6_counterexample :
    bobInactive.isActive = false ∧
    dupState.users.all
      (fun u => !(u.isActive &&
        (u.username == "bob" || u.email == "bob" ||
         u.username == "new@x.co" || u.email == "new@x.co"))) = true ∧
    (validateUserData false dupData).valid = true ∧
    (createUser dupState 1 dupData "u9" "s9").1 = none ∧
    (createUser dupState 1 dupData "u9" "s9").2.1 =
      [AuthEvent.errorShown "User Creation Error" "Username already exists"] ∧
    (createUser dupState 1 dupData "u9" "s9").2.2 = dupState := by
  decide

/-- C6 amended: user creation fails with a duplicate error if and only if the
validated username or email matches some existing user — active or not —
and succeeds (returning the fresh id) exactly when neither matches. -/
theorem c6_amended (s : AuthState) (now : Nat) (d : UserData)
    (freshUid freshSalt : String) (un em pw rl : String)
    (hperm : hasPermission s now Permission.userManage = true)
    (hvalid : (validateUserData false d).valid = true)
    (hun : (validateUserData false d).data.username = some un)
    (hem : (validateUserData false d).data.email = some em)
    (hpw : (validateUserData false d).data.password = some pw)
    (hrl : (validateUserData false d).data.role = some rl) :
    ((createUser s now d freshUid freshSalt).1 = none ↔
       ((findUserByUsernameOrEmail s.users un).isSome = true ∨
        (findUserByUsernameOrEmail s.users em).isSome = true)) ∧
    (((findUserByUsernameOrEmail s.users un).isSome = true ∨
      (findUserByUsernameOrEmail s.users em).isSome = true) →
       ∃ msg, (createUser s now d freshUid freshSalt).2.1 =
         [AuthEvent.errorShown "User Creation Error" msg]) ∧
    (¬((findUserByUsernameOrEmail s.users un).isSome = true ∨
       (findUserByUsernameOrEmail s.users em).isSome = true) →
       (createUser s now d freshUid freshSalt).1 = some freshUid) := by
  have hrole : (roleOfString rl).isSome = true := by
    apply roleOfString_isSome
    apply checkRole_mem (v := d.role)
    have : (validateUserData false d).data.role = (checkRole d.role).2 := rfl
    rw [← this, hrl]
  obtain ⟨role, hrole⟩ := Option.isSome_iff_exists.mp hrole
  simp only [createUser, hperm, hvalid, hun, hem, hpw, hrl, hrole, Bool.not_true,
    Bool.false_eq_true, if_false]
  cases hU : (findUserByUsernameOrEmail s.users un).isSome with
  | true =>
      simp [hU]
  | false =>
      cases hE : (findUserByUsernameOrEmail s.users em).isSome with
      | true => simp [hU, hE]
      | false => simp [hU, hE]

/-- C6 amended witness: creating a genuinely fresh user in `baseState`
succeeds. -/
theorem c6_witness :
    hasPermission baseState 1 Permission.userManage = true ∧
    (validateUserData false dupData).valid = true ∧
    (validateUserData false dupData).data.username = some "bob" ∧
    (validateUserData false dupData).data.email = some "new@x.co" ∧
    (validateUserData false dupData).data.password = some "Passw0rd!" ∧
    (validateUserData false dupData).data.role = some "assistant" ∧
    ((createUser baseState 1 dupData "u9" "s9").1 = none ↔
       ((findUserByUsernameOrEmail baseState.users "bob").isSome = true ∨
        (findUserByUsernameOrEmail baseState.users "new@x.co").isSome = true)) := by
  refine ⟨by decide, by decide, by decide, by decide, by decide, by decide, ?_⟩
  exact (c6_amended baseState 1 dupData "u9" "s9" "bob" "new@x.co" "Passw0rd!" "assistant"
    (by decide) (by decide) (by decide) (by decide) (by decide) (by decide)).1

/-! ### C3 — login failure messages -/

/-- C3 counterexample: the claim says the client-visible failure message is
identical for an unknown username and for a wrong password of an existing
user.  Against `baseState`, the unknown user `zoe` gets
"Invalid username or password" while the wrong password for `root` gets
"Invalid password. 4 attempts remaining." — the dialog messages differ. -/
theorem c3_counterexample :
    findUserByUsernameOrEmail baseState.users "zoe" = none ∧
    (∃ u, findUserByUsernameOrEmail baseState.users "root" = some u ∧
      verifyPassword "wrongpass" u.passwordHash u.salt = false) ∧
    (login baseState 1 "zoe" "wrongpass" false "f1").1 = false ∧
    (login baseState 1 "root" "wrongpass" false "f2").1 = false ∧
    clientMessages (login baseState 1 "zoe" "wrongpass" false "f1").2.1 ≠
      clientMessages (login baseState 1 "root" "wrongpass" false "f2").2.1 := by
  refine ⟨by decide, ⟨rootUser, by decide, by decide⟩, by decide, by decide, by decide⟩

/-! ### Branch lemmas for `login` -/

/-- Login with an identifier matching no user: internal "User not found"
signal, generic client dialog, state unchanged. -/
lemma login_user_not_found (s : AuthState) (uname pw fsid : String) (now : Nat)
    (rm : Bool) (hv : (validateLoginData uname pw).1 = true)
    (hfind : findUserByUsernameOrEmail s.users uname = none) :
    login s now uname pw rm fsid =
      (false,
       [AuthEvent.loginFailedSignal uname "User not found",
        AuthEvent.errorShown "Login Failed" "Invalid username or password"],
       s) := by
  simp [login, hv, hfind]

/-- Login while the account lock is live: denied, state unchanged. -/
lemma login_when_locked (s : AuthState) (u : User) (uname pw fsid : String)
    (now : Nat) (rm : Bool) (hv : (validateLoginData uname pw).1 = true)
    (hfind : findUserByUsernameOrEmail s.users uname = some u)
    (hactive : u.isActive = true) (hlock : u.isLocked now = true) :
    login s now uname pw rm fsid =
      (false,
       [AuthEvent.accountLockedSignal uname,
        AuthEvent.errorShown "Account Locked"
          ("Account is locked until " ++ toString (u.lockedUntil.getD 0))],
       s) := by
  simp [login, hv, hfind, hactive, hlock]

/-- Wrong password while still below the lockout threshold: the failure
counter is bumped on the stored user, no lock is set. -/
lemma login_wrong_below_max (s : AuthState) (u : User) (uname pw fsid : String)
    (now : Nat) (hv : (validateLoginData uname pw).1 = true)
    (hfind : findUserByUsernameOrEmail s.users uname = some u)
    (hactive : u.isActive = true) (hlock : u.isLocked now = false)
    (hbad : verifyPassword pw u.passwordHash u.salt = false)
    (hsmall : u.failedLoginAttempts + 1 < s.maxLoginAttempts) :
    login s now uname pw false fsid =
      (false,
       [AuthEvent.errorShown "Login Failed"
          ("Invalid password. " ++ toString (s.maxLoginAttempts - (u.failedLoginAttempts + 1)) ++
           " attempts remaining."),
        AuthEvent.loginFailedSignal uname "Invalid password"],
       { s with users := updateUserIn s.users u.id (fun x =>
           { x with failedLoginAttempts := u.failedLoginAttempts + 1 }) }) := by
  have hle : ¬ (s.maxLoginAttempts ≤ u.failedLoginAttempts + 1) := by omega
  simp [login, hv, hfind, hactive, hlock, hbad, hle]

/-- Wrong password reaching the threshold: the stored user is locked for the
configured duration from now. -/
lemma login_wrong_reaches_max (s : AuthState) (u : User) (uname pw fsid : String)
    (now : Nat) (hv : (validateLoginData uname pw).1 = true)
    (hfind : findUserByUsernameOrEmail s.users uname = some u)
    (hactive : u.isActive = true) (hlock : u.isLocked now = false)
    (hbad : verifyPassword pw u.passwordHash u.salt = false)
    (hbig : s.maxLoginAttempts ≤ u.failedLoginAttempts + 1) :
    login s now uname pw false fsid =
      (false,
       [AuthEvent.accountLockedSignal uname,
        AuthEvent.errorShown "Account Locked"
          ("Account locked due to too many failed attempts. Try again in " ++
           toString s.lockoutDurationMinutes ++ " minutes."),
        AuthEvent.loginFailedSignal uname "Invalid password"],
       { s with users := updateUserIn s.users u.id (fun x =>
           { x with failedLoginAttempts := u.failedLoginAttempts + 1,
                    lockedUntil := some (now + s.lockoutDurationMinutes) }) }) := by
  simp [login, hv, hfind, hactive, hlock, hbad, hbig]

/-- Correct password on an unlocked active account: counters reset, a fresh
Active session is registered and becomes current. -/
lemma login_correct (s : AuthState) (u : User) (uname pw fsid : String)
    (now : Nat) (rm : Bool) (hv : (validateLoginData uname pw).1 = true)
    (hfind : findUserByUsernameOrEmail s.users uname = some u)
    (hactive : u.isActive = true) (hlock : u.isLocked now = false)
    (hgood : verifyPassword pw u.passwordHash u.salt = true) :
    login s now uname pw rm fsid =
      (true,
       [AuthEvent.successShown "Login Successful" ("Welcome back, " ++ u.username ++ "!"),
        AuthEvent.userLoggedInSignal u.username,
        AuthEvent.dataChanged "user_logged_in"],
       { s with
           users := updateUserIn s.users u.id (fun x =>
             { x with failedLoginAttempts := 0, lockedUntil := none,
                      lastLogin := some now })
           sessions := insertSession s.sessions
             (newSession u (if rm then 24 else s.sessionTimeoutHours) fsid now)
           currentUserId := some u.id
           currentSessionId := some fsid }) := by
  simp [login, hv, hfind, hactive, hlock, hgood]

/-- C3 amended: the user-facing dialog does distinguish the two causes — an
unknown identifier produces "Invalid username or password" while a wrong
password for an existing (active, unlocked, below-threshold) user produces
"Invalid password. N attempts remaining."; the internal signals also carry
distinct reasons. -/
theorem c3_amended (s : AuthState) (now : Nat) (nameU nameW pw fsid1 fsid2 : String)
    (u : User)
    (hv1 : (validateLoginData nameU pw).1 = true)
    (hv2 : (validateLoginData nameW pw).1 = true)
    (hnone : findUserByUsernameOrEmail s.users nameU = none)
    (hsome : findUserByUsernameOrEmail s.users nameW = some u)
    (hactive : u.isActive = true) (hnl : u.isLocked now = false)
    (hbad : verifyPassword pw u.passwordHash u.salt = false)
    (hsmall : u.failedLoginAttempts + 1 < s.maxLoginAttempts) :
    clientMessages (login s now nameU pw false fsid1).2.1 =
      [("Login Failed", "Invalid username or password")] ∧
    clientMessages (login s now nameW pw false fsid2).2.1 =
      [("Login Failed",
        "Invalid password. " ++ toString (s.maxLoginAttempts - (u.failedLoginAttempts + 1)) ++
        " attempts remaining.")] ∧
    ("Invalid username or password" : String) ≠
      ("Invalid password. " ++ toString (s.maxLoginAttempts - (u.failedLoginAttempts + 1)) ++
       " attempts remaining.") ∧
    (login s now nameU pw false fsid1).2.1.contains
      (AuthEvent.loginFailedSignal nameU "User not found") = true ∧
    (login s now nameW pw false fsid2).2.1.contains
      (AuthEvent.loginFailedSignal nameW "Invalid password") = true := by
  rw [login_user_not_found s nameU pw fsid1 now false hv1 hnone,
    login_wrong_below_max s u nameW pw fsid2 now hv2 hsome hactive hnl hbad hsmall]
  refine ⟨rfl, rfl, ?_, by simp, by simp⟩
  intro h
  have hlen := congrArg String.length h
  rw [String.length_append, String.length_append] at hlen
  have h1 : ("Invalid username or password" : String).length = 28 := rfl
  have h2 : ("Invalid password. " : String).length = 18 := rfl
  have h3 : (" attempts remaining." : String).length = 20 := rfl
  omega

/-- C3 amended witness. -/
theorem c3_witness :
    (validateLoginData "zoe" "wrongpass").1 = true ∧
    (validateLoginData "root" "wrongpass").1 = true ∧
    findUserByUsernameOrEmail baseState.users "zoe" = none ∧
    findUserByUsernameOrEmail baseState.users "root" = some rootUser ∧
    rootUser.isActive = true ∧
    rootUser.isLocked 1 = false ∧
    verifyPassword "wrongpass" rootUser.passwordHash rootUser.salt = false ∧
    rootUser.failedLoginAttempts + 1 < baseState.maxLoginAttempts ∧
    clientMessages (login baseState 1 "zoe" "wrongpass" false "f1").2.1 =
      [("Login Failed", "Invalid username or password")] := by
  refine ⟨by decide, by decide, by decide, by decide, rfl, by decide, by decide,
    by decide, ?_⟩
  exact (c3_amended baseState 1 "zoe" "root" "wrongpass" "f1" "f2" rootUser
    (by decide) (by decide) (by decide) (by decide) rfl (by decide) (by decide)
    (by decide)).1

/-! ### C2 — lockout threshold -/

/-- In-place update of the only user of a singleton directory. -/
lemma updateUserIn_singleton (u : User) (f : User → User) :
    updateUserIn [u] u.id f = [f u] := by
  simp [updateUserIn]

/-- Lookup in a singleton directory by the stored username. -/
lemma find_singleton (u : User) (uname : String) (h : u.username = uname) :
    findUserByUsernameOrEmail [u] uname = some u := by
  simp [findUserByUsernameOrEmail, h]

/-- `login_wrong_below_max` specialised to a singleton user directory. -/
lemma login_wrong_below_max_single (s : AuthState) (u : User) (uname pw fsid : String)
    (now : Nat) (husers : s.users = [u]) (hname : u.username = uname)
    (hv : (validateLoginData uname pw).1 = true)
    (hactive : u.isActive = true) (hlock : u.isLocked now = false)
    (hbad : verifyPassword pw u.passwordHash u.salt = false)
    (hsmall : u.failedLoginAttempts + 1 < s.maxLoginAttempts) :
    login s now uname pw false fsid =
      (false,
       [AuthEvent.errorShown "Login Failed"
          ("Invalid password. " ++ toString (s.maxLoginAttempts - (u.failedLoginAttempts + 1)) ++
           " attempts remaining."),
        AuthEvent.loginFailedSignal uname "Invalid password"],
       { s with users := [{ u with failedLoginAttempts := u.failedLoginAttempts + 1 }] }) := by
  rw [login_wrong_below_max s u uname pw fsid now hv
    (by rw [husers]; exact find_singleton u uname hname) hactive hlock hbad hsmall,
    husers, updateUserIn_singleton]

/-- `login_wrong_reaches_max` specialised to a singleton user directory. -/
lemma login_wrong_reaches_max_single (s : AuthState) (u : User) (uname pw fsid : String)
    (now : Nat) (husers : s.users = [u]) (hname : u.username = uname)
    (hv : (validateLoginData uname pw).1 = true)
    (hactive : u.isActive = true) (hlock : u.isLocked now = false)
    (hbad : verifyPassword pw u.passwordHash u.salt = false)
    (hbig : s.maxLoginAttempts ≤ u.failedLoginAttempts + 1) :
    login s now uname pw false fsid =
      (false,
       [AuthEvent.accountLockedSignal uname,
        AuthEvent.errorShown "Account Locked"
          ("Account locked due to too many failed attempts. Try again in " ++
           toString s.lockoutDurationMinutes ++ " minutes."),
        AuthEvent.loginFailedSignal uname "Invalid password"],
       { s with users := [{ u with
           failedLoginAttempts := u.failedLoginAttempts + 1,
           lockedUntil := some (now + s.lockoutDurationMinutes) }] }) := by
  rw [login_wrong_reaches_max s u uname pw fsid now hv
    (by rw [husers]; exact find_singleton u uname hname) hactive hlock hbad hbig,
    husers, updateUserIn_singleton]

/-- `login_correct` specialised to a singleton user directory. -/
lemma login_correct_single (s : AuthState) (u : User) (uname pw fsid : String)
    (now : Nat) (rm : Bool) (husers : s.users = [u]) (hname : u.username = uname)
    (hv : (validateLoginData uname pw).1 = true)
    (hactive : u.isActive = true) (hlock : u.isLocked now = false)
    (hgood : verifyPassword pw u.passwordHash u.salt = true) :
    login s now uname pw rm fsid =
      (true,
       [AuthEvent.successShown "Login Successful" ("Welcome back, " ++ u.username ++ "!"),
        AuthEvent.userLoggedInSignal u.username,
        AuthEvent.dataChanged "user_logged_in"],
       { s with
           users := [{ u with
             failedLoginAttempts := 0,
             lockedUntil := none,
             lastLogin := some now }]
           sessions := insertSession s.sessions
             (newSession u (if rm then 24 else s.sessionTimeoutHours) fsid now)
           currentUserId := some u.id
           currentSessionId := some fsid }) := by
  rw [login_correct s u uname pw fsid now rm hv
    (by rw [husers]; exact find_singleton u uname hname) hactive hlock hgood,
    husers, updateUserIn_singleton]

/-- C2: with `maxLoginAttempts = 3`, three consecutive wrong-password logins
lock the account for `lockoutDurationMinutes` from the third attempt; while
the lock is live even the correct password is denied with the locked error
and no state change; from the moment the lock duration has elapsed, the
correct password logs in and resets `failedLoginAttempts` to 0 (clearing the
lock). -/
theorem c2_lockout_threshold (s : AuthState) (u : User)
    (uname wrong right f1 f2 f3 f4 f5 : String) (t1 t2 t3 : Nat)
    (hmax : s.maxLoginAttempts = 3)
    (husers : s.users = [u])
    (hactive : u.isActive = true)
    (hcount : u.failedLoginAttempts = 0)
    (hlockinit : u.lockedUntil = none)
    (hname : u.username = uname)
    (hv1 : (validateLoginData uname wrong).1 = true)
    (hv2 : (validateLoginData uname right).1 = true)
    (hbad : verifyPassword wrong u.passwordHash u.salt = false)
    (hgood : verifyPassword right u.passwordHash u.salt = true) :
    (login s t1 uname wrong false f1).1 = false ∧
    (login (login s t1 uname wrong false f1).2.2 t2 uname wrong false f2).1 = false ∧
    (login (login (login s t1 uname wrong false f1).2.2 t2 uname wrong false f2).2.2
        t3 uname wrong false f3).1 = false ∧
    (login (login (login s t1 uname wrong false f1).2.2 t2 uname wrong false f2).2.2
        t3 uname wrong false f3).2.2 =
      { s with users := [{ u with
          failedLoginAttempts := 3,
          lockedUntil := some (t3 + s.lockoutDurationMinutes) }] } ∧
    (∀ t4, t4 < t3 + s.lockoutDurationMinutes →
      login { s with users := [{ u with
            failedLoginAttempts := 3,
            lockedUntil := some (t3 + s.lockoutDurationMinutes) }] }
          t4 uname right false f4 =
        (false,
         [AuthEvent.accountLockedSignal uname,
          AuthEvent.errorShown "Account Locked"
            ("Account is locked until " ++ toString (t3 + s.lockoutDurationMinutes))],
         { s with users := [{ u with
             failedLoginAttempts := 3,
             lockedUntil := some (t3 + s.lockoutDurationMinutes) }] })) ∧
    (∀ t5, t3 + s.lockoutDurationMinutes ≤ t5 →
      (login { s with users := [{ u with
             failedLoginAttempts := 3,
             lockedUntil := some (t3 + s.lockoutDurationMinutes) }] }
          t5 uname right false f5).1 = true ∧
      (login { s with users := [{ u with
             failedLoginAttempts := 3,
             lockedUntil := some (t3 + s.lockoutDurationMinutes) }] }
          t5 uname right false f5).2.2.users =
        [{ u with
           failedLoginAttempts := 0,
           lockedUntil := none,
           lastLogin := some t5 }]) := by
  have A1 := login_wrong_below_max_single s u uname wrong f1 t1 husers hname hv1
    hactive (by simp [User.isLocked, hlockinit]) hbad (by omega)
  have B1 : (login s t1 uname wrong false f1).2.2 =
      { s with users := [{ u with failedLoginAttempts := u.failedLoginAttempts + 1 }] } := by
    rw [A1]
  have A2 := login_wrong_below_max_single
    { s with users := [{ u with failedLoginAttempts := u.failedLoginAttempts + 1 }] }
    { u with failedLoginAttempts := u.failedLoginAttempts + 1 }
    uname wrong f2 t2 rfl hname hv1 hactive (by simp [User.isLocked, hlockinit]) hbad
    (by show u.failedLoginAttempts + 1 + 1 < s.maxLoginAttempts; omega)
  have B2 : (login (login s t1 uname wrong false f1).2.2 t2 uname wrong false f2).2.2 =
      { s with users :=
          [{ u with failedLoginAttempts := u.failedLoginAttempts + 1 + 1 }] } := by
    rw [B1, A2]
  have A3 := login_wrong_reaches_max_single
    { s with users := [{ u with failedLoginAttempts := u.failedLoginAttempts + 1 + 1 }] }
    { u with failedLoginAttempts := u.failedLoginAttempts + 1 + 1 }
    uname wrong f3 t3 rfl hname hv1 hactive (by simp [User.isLocked, hlockinit]) hbad
    (by show s.maxLoginAttempts ≤ u.failedLoginAttempts + 1 + 1 + 1; omega)
  have B3 : (login (login (login s t1 uname wrong false f1).2.2 t2 uname wrong false f2).2.2
      t3 uname wrong false f3).2.2 =
      { s with users := [{ u with
          failedLoginAttempts := 3,
          lockedUntil := some (t3 + s.lockoutDurationMinutes) }] } := by
    rw [B2, A3]
    simp [hcount]
  refine ⟨by rw [A1], by rw [B1, A2], by rw [B2, A3], B3, ?_, ?_⟩
  · intro t4 ht4
    exact login_when_locked
      { s with users := [{ u with
          failedLoginAttempts := 3,
          lockedUntil := some (t3 + s.lockoutDurationMinutes) }] }
      { u with
        failedLoginAttempts := 3,
        lockedUntil := some (t3 + s.lockoutDurationMinutes) }
      uname right f4 t4 false hv2
      (find_singleton { u with
          failedLoginAttempts := 3,
          lockedUntil := some (t3 + s.lockoutDurationMinutes) } uname hname)
      hactive (by simp [User.isLocked]; omega)
  · intro t5 ht5
    have A5 := login_correct_single
      { s with users := [{ u with
          failedLoginAttempts := 3,
          lockedUntil := some (t3 + s.lockoutDurationMinutes) }] }
      { u with
        failedLoginAttempts := 3,
        lockedUntil := some (t3 + s.lockoutDurationMinutes) }
      uname right f5 t5 false rfl hname hv2 hactive
      (by simp [User.isLocked]; omega) hgood
    exact ⟨by rw [A5], by rw [A5]⟩

/-! ### Session-map shape lemmas -/

/-- Membership after a dict insert. -/
lemma mem_of_mem_insertSession {l : List Session} {t x : Session}
    (h : x ∈ insertSession l t) : x ∈ l ∨ x = t := by
  unfold insertSession at h
  rcases List.mem_append.mp h with h | h
  · exact Or.inl (List.mem_filter.mp h).1
  · exact Or.inr (by simpa using h)

/-- Membership after mark-Terminated-and-delete: survivors are original
entries with a different id. -/
lemma mem_of_mem_removeSessionMarked {l : List Session} {sid : String} {x : Session}
    (h : x ∈ removeSessionMarked l sid) : x ∈ l ∧ x.sessionId ≠ sid := by
  unfold removeSessionMarked at h
  obtain ⟨hmem, hkeep⟩ := List.mem_filter.mp h
  obtain ⟨y, hy, hxy⟩ := List.mem_map.mp hmem
  have hne : x.sessionId ≠ sid := by simpa using hkeep
  refine ⟨?_, hne⟩
  by_cases hid : y.sessionId == sid
  · rw [if_pos hid] at hxy
    exact absurd (by rw [← hxy]; exact (beq_iff_eq.mp hid)) hne
  · rw [if_neg hid] at hxy
    rw [← hxy]
    exact hy

/-- Membership after the extension map: id and status are preserved. -/
lemma mem_of_mem_extendMap {l : List Session} {sid : String} {e la : Nat} {x : Session}
    (h : x ∈ l.map (fun t =>
      if t.sessionId == sid then { t with expiresAt := e, lastActivity := la } else t)) :
    ∃ y ∈ l, x.sessionId = y.sessionId ∧ x.status = y.status := by
  obtain ⟨y, hy, hxy⟩ := List.mem_map.mp h
  by_cases hid : y.sessionId == sid
  · rw [if_pos hid] at hxy
    exact ⟨y, hy, by rw [← hxy]; exact ⟨rfl, rfl⟩⟩
  · rw [if_neg hid] at hxy
    exact ⟨y, hy, by rw [← hxy]; exact ⟨rfl, rfl⟩⟩

/-- `login` either leaves the session map unchanged or inserts the fresh
Active session of the logged-in user. -/
lemma login_sessions_cases (s : AuthState) (now : Nat) (un pw : String)
    (rm : Bool) (f : String) :
    (login s now un pw rm f).2.2.sessions = s.sessions ∨
    ∃ u, (login s now un pw rm f).2.2.sessions =
      insertSession s.sessions (newSession u (if rm then 24 else s.sessionTimeoutHours) f now) := by
  simp only [login]
  repeat' split
  all_goals first
    | exact Or.inl rfl
    | exact Or.inr ⟨_, rfl⟩

/-- `logout` either leaves the session map unchanged or removes one id. -/
lemma logout_sessions_cases (s : AuthState) :
    (logout s).2.2.sessions = s.sessions ∨
    ∃ sid, (logout s).2.2.sessions = removeSessionMarked s.sessions sid := by
  simp only [logout]
  repeat' split
  all_goals first
    | exact Or.inl rfl
    | exact Or.inr ⟨_, rfl⟩

/-- `change_password` never touches the session map. -/
lemma changePassword_sessions (s : AuthState) (c n f : String) :
    (changePassword s c n f).2.sessions = s.sessions := by
  simp only [changePassword]
  repeat' split
  all_goals rfl

/-- `create_user` never touches the session map. -/
lemma createUser_sessions (s : AuthState) (now : Nat) (d : UserData) (fu fs : String) :
    (createUser s now d fu fs).2.2.sessions = s.sessions := by
  simp only [createUser]
  repeat' split
  all_goals rfl

/-- `update_user` never touches the session map. -/
lemma updateUser_sessions (s : AuthState) (now : Nat) (uid : String) (d : UserData) :
    (updateUser s now uid d).2.sessions = s.sessions := rfl

/-- `delete_user` either leaves the session map unchanged or filters out the
target user\x27s sessions. -/
lemma deleteUser_sessions_cases (s : AuthState) (now : Nat) (uid : String) :
    (deleteUser s now uid).2.sessions = s.sessions ∨
    (deleteUser s now uid).2.sessions = s.sessions.filter (fun t => !(t.userId == uid)) := by
  simp only [deleteUser]
  repeat' split
  all_goals first
    | exact Or.inl rfl
    | exact Or.inr rfl

/-- The sweep keeps exactly the currently valid sessions. -/
lemma checkSessionExpiry_sessions (s : AuthState) (now : Nat) :
    (checkSessionExpiry s now).sessions = s.sessions.filter (fun t => t.isValid now) := by
  simp only [checkSessionExpiry]
  split
  all_goals rfl

/-- `terminate_session` either leaves the map unchanged or removes one id. -/
lemma terminateSession_sessions_cases (s : AuthState) (now : Nat) (sid : String) :
    (terminateSession s now sid).2.sessions = s.sessions ∨
    (terminateSession s now sid).2.sessions = removeSessionMarked s.sessions sid := by
  simp only [terminateSession]
  repeat' split
  all_goals first
    | exact Or.inl rfl
    | exact Or.inr rfl

/-- `reset_failed_login_attempts` never touches the session map. -/
lemma resetFailed_sessions (s : AuthState) (now : Nat) (un : String) :
    (resetFailedLoginAttempts s now un).2.sessions = s.sessions := by
  simp only [resetFailedLoginAttempts]
  repeat' split
  all_goals rfl

/-- `extend_current_session` either leaves the map unchanged or remaps it
preserving ids and statuses. -/
lemma extendCurrentSession_sessions_cases (s : AuthState) (now h : Nat) :
    (extendCurrentSession s now h).2.sessions = s.sessions ∨
    ∃ sid, (extendCurrentSession s now h).2.sessions = s.sessions.map (fun t =>
      if t.sessionId == sid then
        { t with expiresAt := now + h * 60, lastActivity := now }
      else t) := by
  simp only [extendCurrentSession]
  repeat' split
  all_goals first
    | exact Or.inl rfl
    | exact Or.inr ⟨_, rfl⟩

/-- A session id absent from the registry stays absent under any operation
whose fresh session id (if any) differs from it. -/
lemma noSession_stepOp {sid : String} (op : AuthOp) (s : AuthState)
    (h : noSession s sid) (hf : opFreshSid op ≠ some sid) :
    noSession (stepOp op s) sid := by
  intro x hx
  cases op with
  | opLogin now un pw rm f =>
      have hfr : f ≠ sid := fun he => hf (by rw [opFreshSid, he])
      simp only [stepOp] at hx
      rcases login_sessions_cases s now un pw rm f with hc | ⟨u, hc⟩
      · exact h x (hc ▸ hx)
      · rcases mem_of_mem_insertSession (hc ▸ hx) with hm | hm
        · exact h x hm
        · rw [hm]; exact hfr
  | opLogout =>
      simp only [stepOp] at hx
      rcases logout_sessions_cases s with hc | ⟨sid2, hc⟩
      · exact h x (hc ▸ hx)
      · exact h x (mem_of_mem_removeSessionMarked (hc ▸ hx)).1
  | opChangePassword c n f =>
      simp only [stepOp] at hx
      exact h x (changePassword_sessions s c n f ▸ hx)
  | opCreateUser now d fu fs =>
      simp only [stepOp] at hx
      exact h x (createUser_sessions s now d fu fs ▸ hx)
  | opUpdateUser now uid d =>
      simp only [stepOp] at hx
      exact h x (updateUser_sessions s now uid d ▸ hx)
  | opDeleteUser now uid =>
      simp only [stepOp] at hx
      rcases deleteUser_sessions_cases s now uid with hc | hc
      · exact h x (hc ▸ hx)
      · exact h x (List.mem_filter.mp (hc ▸ hx)).1
  | opSweep now =>
      simp only [stepOp] at hx
      exact h x (List.mem_filter.mp (checkSessionExpiry_sessions s now ▸ hx)).1
  | opTerminateSession now sid2 =>
      simp only [stepOp] at hx
      rcases terminateSession_sessions_cases s now sid2 with hc | hc
      · exact h x (hc ▸ hx)
      · exact h x (mem_of_mem_removeSessionMarked (hc ▸ hx)).1
  | opResetFailedAttempts now un =>
      simp only [stepOp] at hx
      exact h x (resetFailed_sessions s now un ▸ hx)
  | opExtendSession now hrs =>
      simp only [stepOp] at hx
      rcases extendCurrentSession_sessions_cases s now hrs with hc | ⟨sid2, hc⟩
      · exact h x (hc ▸ hx)
      · obtain ⟨y, hy, hid, _⟩ := mem_of_mem_extendMap (hc ▸ hx)
        rw [hid]
        exact h y hy

/-- `noSession` is preserved by whole runs with fresh session ids. -/
lemma noSession_runOps {sid : String} (ops : List AuthOp) (s : AuthState)
    (h : noSession s sid) (hf : ∀ op ∈ ops, opFreshSid op ≠ some sid) :
    noSession (runOps ops s) sid := by
  induction ops generalizing s with
  | nil => exact h
  | cons op rest ih =>
      exact ih (stepOp op s)
        (noSession_stepOp op s h (hf op (List.mem_cons_self op rest)))
        (fun o ho => hf o (List.mem_cons_of_mem op ho))

/-- Every-session-Active is preserved by each operation. -/
lemma allActive_stepOp (op : AuthOp) (s : AuthState) (h : allActive s) :
    allActive (stepOp op s) := by
  intro x hx
  cases op with
  | opLogin now un pw rm f =>
      simp only [stepOp] at hx
      rcases login_sessions_cases s now un pw rm f with hc | ⟨u, hc⟩
      · exact h x (hc ▸ hx)
      · rcases mem_of_mem_insertSession (hc ▸ hx) with hm | hm
        · exact h x hm
        · rw [hm]; rfl
  | opLogout =>
      simp only [stepOp] at hx
      rcases logout_sessions_cases s with hc | ⟨sid2, hc⟩
      · exact h x (hc ▸ hx)
      · exact h x (mem_of_mem_removeSessionMarked (hc ▸ hx)).1
  | opChangePassword c n f =>
      simp only [stepOp] at hx
      exact h x (changePassword_sessions s c n f ▸ hx)
  | opCreateUser now d fu fs =>
      simp only [stepOp] at hx
      exact h x (createUser_sessions s now d fu fs ▸ hx)
  | opUpdateUser now uid d =>
      simp only [stepOp] at hx
      exact h x (updateUser_sessions s now uid d ▸ hx)
  | opDeleteUser now uid =>
      simp only [stepOp] at hx
      rcases deleteUser_sessions_cases s now uid with hc | hc
      · exact h x (hc ▸ hx)
      · exact h x (List.mem_filter.mp (hc ▸ hx)).1
  | opSweep now =>
      simp only [stepOp] at hx
      exact h x (List.mem_filter.mp (checkSessionExpiry_sessions s now ▸ hx)).1
  | opTerminateSession now sid2 =>
      simp only [stepOp] at hx
      rcases terminateSession_sessions_cases s now sid2 with hc | hc
      · exact h x (hc ▸ hx)
      · exact h x (mem_of_mem_removeSessionMarked (hc ▸ hx)).1
  | opResetFailedAttempts now un =>
      simp only [stepOp] at hx
      exact h x (resetFailed_sessions s now un ▸ hx)
  | opExtendSession now hrs =>
      simp only [stepOp] at hx
      rcases extendCurrentSession_sessions_cases s now hrs with hc | ⟨sid2, hc⟩
      · exact h x (hc ▸ hx)
      · obtain ⟨y, hy, _, hst⟩ := mem_of_mem_extendMap (hc ▸ hx)
        rw [hst]
        exact h y hy

/-! ### C7 — idempotent logout, C9 — registry invariant -/

/-- C7: from a state with an active current session, the first `logout`
succeeds, the popped session object carries status Terminated, a second
`logout` fails ("no active session") without changing anything, the session
id is gone from the registry, and it stays gone under every later sequence
of operations whose fresh session ids differ from it. -/
theorem c7_logout_idempotent (s : AuthState) (uid sid : String) (t : Session)
    (now : Nat)
    (h1 : s.currentUserId = some uid) (h2 : s.currentSessionId = some sid)
    (h3 : findSession s.sessions sid = some t) (h4 : t.isValid now = true) :
    (logout s).1 = true ∧
    (logout s).2.1 = some { t with status := SessionStatus.terminated } ∧
    (logout (logout s).2.2).1 = false ∧
    (logout (logout s).2.2).2.2 = (logout s).2.2 ∧
    noSession (logout s).2.2 sid ∧
    (∀ ops : List AuthOp, (∀ op ∈ ops, opFreshSid op ≠ some sid) →
       noSession (runOps ops (logout s).2.2) sid) := by
  have hlo : logout s =
      (true,
       (findSession s.sessions sid).map
         (fun x => { x with status := SessionStatus.terminated }),
       { s with sessions := removeSessionMarked s.sessions sid,
                currentUserId := none, currentSessionId := none }) := by
    simp [logout, h1, h2]
  have hns : noSession
      { s with sessions := removeSessionMarked s.sessions sid,
               currentUserId := none, currentSessionId := none } sid := by
    intro x hx
    exact (mem_of_mem_removeSessionMarked hx).2
  refine ⟨by rw [hlo], ?_, ?_, ?_, ?_, ?_⟩
  · rw [hlo]
    simp [h3]
  · rw [hlo]
    rfl
  · rw [hlo]
    rfl
  · rw [hlo]
    exact hns
  · intro ops hfr
    rw [hlo]
    exact noSession_runOps ops _ hns hfr

/-- C7 witness. -/
theorem c7_witness :
    baseState.currentUserId = some "u1" ∧
    baseState.currentSessionId = some "sid1" ∧
    findSession baseState.sessions "sid1" = some rootSession ∧
    rootSession.isValid 1 = true ∧
    (logout baseState).1 = true ∧
    (logout baseState).2.1 = some { rootSession with status := SessionStatus.terminated } ∧
    (logout (logout baseState).2.2).1 = false := by
  have h := c7_logout_idempotent baseState "u1" "sid1" rootSession 1 rfl rfl
    (by decide) (by decide)
  exact ⟨rfl, rfl, by decide, by decide, h.1, h.2.1, h.2.2.1⟩

/-- C9: every operation preserves the invariant that each session stored in
the active-session registry has status Active — creation inserts only Active
sessions, and logout, admin termination, the expiry sweep and user deletion
remove sessions from the map in the same step, so no Expired or Terminated
session is ever observable in the map. -/
theorem c9_registry_sessions_all_active (op : AuthOp) (s : AuthState)
    (h : allActive s) : allActive (stepOp op s) :=
  allActive_stepOp op s h

/-- C9 witness. -/
theorem c9_witness :
    allActive baseState ∧ allActive (stepOp AuthOp.opLogout baseState) := by
  have h : allActive baseState := by
    have hh : ∀ t ∈ baseState.sessions, t.status = SessionStatus.active := by decide
    exact hh
  exact ⟨h, c9_registry_sessions_all_active AuthOp.opLogout baseState h⟩

/-- A user for the lockout scenario (threshold 3). -/
def lockUser : User :=
  { id := "u5", username := "lia", email := "lia@x.co", role := UserRole.assistant,
    passwordHash := hashPassword "Liapass1!" "s5", salt := "s5", isActive := true,
    createdAt := 0, lastLogin := none, failedLoginAttempts := 0, lockedUntil := none }

/-- A state configured with `maxLoginAttempts = 3` containing only `lockUser`. -/
def lockState : AuthState :=
  { users := [lockUser], sessions := [], currentUserId := none,
    currentSessionId := none, maxLoginAttempts := 3,
    lockoutDurationMinutes := 30, sessionTimeoutHours := 8 }

/-- C2 witness. -/
theorem c2_witness :
    lockState.maxLoginAttempts = 3 ∧
    verifyPassword "badpass" lockUser.passwordHash lockUser.salt = false ∧
    verifyPassword "Liapass1!" lockUser.passwordHash lockUser.salt = true ∧
    (login (login (login lockState 1 "lia" "badpass" false "g1").2.2 2 "lia" "badpass"
        false "g2").2.2 3 "lia" "badpass" false "g3").2.2 =
      { lockState with users := [{ lockUser with
          failedLoginAttempts := 3,
          lockedUntil := some (3 + lockState.lockoutDurationMinutes) }] } := by
  have h := c2_lockout_threshold lockState lockUser "lia" "badpass" "Liapass1!"
    "g1" "g2" "g3" "g4" "g5" 1 2 3 rfl rfl rfl rfl rfl rfl
    (by decide) (by decide) (by decide) (by decide)
  exact ⟨rfl, by decide, by decide, h.2.2.2.1⟩

end PharmAuth
